import Mathlib

/-!
Verification of the lazy-sequence ("generator") validator and the nullable
serializer of the pydantic-core excerpt.

The definitions below shallowly embed the two Rust source files:

* `src/validators/generator.rs` — `GeneratorValidator`, `ValidatorIterator`,
  `InternalValidator`;
* `src/serializers/type_serializers/nullable.rs` — `NullableSerializer`.

Types that the excerpt only uses (the validation state, the error model, the
generic iterator, the object-type lookup, the inner validator/serializer nodes)
are modelled from the specification and kept abstract where the excerpt treats
them abstractly: inner nodes become records of functions, host values become
plain data.
-/

namespace PydanticCore

namespace Validators

/-- Host values flowing through the generator pipeline (opaque handles). -/
abbrev Val := Nat

/-- Modelled from the spec: the exactness score used to break ties among union
alternatives; an ordered enumeration with three levels (external to the
excerpt, which only stores and restores it). -/
inductive Exactness where
  | lax
  | strict
  | exact
deriving DecidableEq

/-- Modelled from the spec: the recursion guard tracking the active validation
path; the excerpt only clones it and threads it through, so it is opaque here. -/
structure RecursionState where
  depth : Nat
deriving DecidableEq

/-- Modelled from the spec: whether the validation input is a host object or a
parsed document. -/
inductive InputType where
  | python
  | json
deriving DecidableEq

/-- Modelled from the spec: the string-caching policy carried in the ambient
parameters (opaque to the excerpt). -/
inductive StringCacheMode where
  | all
  | keys
  | off
deriving DecidableEq

/-- One segment of a location path: an index or a key. -/
inductive LocItem where
  | index (i : Nat)
  | key (s : String)
deriving DecidableEq

/-- Modelled from the spec: the ambient parameter bundle (`Extra`) threaded
through validation.  Opaque host objects (data dict, context, self instance)
are modelled as numeric handles. -/
structure Extra where
  input_type : InputType
  data : Option Nat
  strict : Option Bool
  from_attributes : Option Bool
  field_name : Option String
  context : Option Nat
  self_instance : Option Nat
  cache_str : StringCacheMode
  by_alias : Option Bool
  by_name : Option Bool
deriving DecidableEq

/-- Modelled from the spec: the per-call validation state — ambient parameters,
recursion guard, exactness accumulator, field-completeness counter, and the
partial-validation flag (the Rust field `allow_partial`). -/
structure ValidationState where
  extra : Extra
  recursion_guard : RecursionState
  exactness : Option Exactness
  fields_set_count : Option Nat
  allowPartial : Bool
deriving DecidableEq

/-- Modelled from the spec: a fresh validation state starts with no exactness
and no field-completeness count. -/
def ValidationState.new (extra : Extra) (recursion_guard : RecursionState)
    (allowPartial : Bool) : ValidationState :=
  { extra := extra, recursion_guard := recursion_guard, exactness := none,
    fields_set_count := none, allowPartial := allowPartial }

/-- The error kinds the excerpt constructs (`TooLong`, `TooShort`), plus an
opaque kind for errors raised by inner validators.  The Rust `context` field of
both kinds is always `None` in this excerpt and is omitted. -/
inductive ErrorType where
  | tooLong (field_type : String) (max_length : Nat) (actual_length : Option Nat)
  | tooShort (field_type : String) (min_length : Nat) (actual_length : Nat)
  | other (kind : String)
deriving DecidableEq

/-- An internal validation error: a kind plus an optional custom offending
input (the handle attached by `ValError::new_custom_input`). -/
structure ValError where
  error_type : ErrorType
  input : Option Val
deriving DecidableEq

/-- Mirrors `ValError::new_custom_input`: attach a custom offending-input
value to an error kind. -/
def ValError.new_custom_input (error_type : ErrorType) (input : Val) : ValError :=
  { error_type := error_type, input := some input }

/-- Modelled from the spec: the host-facing error report produced by
`ValidationError::from_val_error` — title, wrapped error, optional outer
location, and the two presentation properties driven by the construction
flags: whether the offending-input excerpt is shown and whether a causal
chain is attached. -/
structure ValidationError where
  title : String
  error : ValError
  outer_location : Option LocItem
  input_excerpt_shown : Bool
  causal_chain_attached : Bool
deriving DecidableEq

/-- Modelled from the spec: `ValidationError::from_val_error` builds the
host-facing report; `hide_input_in_errors` redacts the offending-input excerpt
and `validation_error_cause` attaches the causal chain. -/
def ValidationError.from_val_error (title : String) (error : ValError)
    (outer_location : Option LocItem) (hide_input_in_errors : Bool)
    (validation_error_cause : Bool) : ValidationError :=
  { title := title, error := error, outer_location := outer_location,
    input_excerpt_shown := !hide_input_in_errors,
    causal_chain_attached := validation_error_cause }

/-- Modelled from the spec: an inner compiled validator node
(`CombinedValidator`), abstract to the excerpt — a record of its `validate`
and `validate_assignment` behaviours and its name. -/
structure CombinedValidator where
  validate : Val → ValidationState → Except ValError Val × ValidationState
  validate_assignment : Val → String → Val → ValidationState →
    Except ValError Val × ValidationState
  get_name : String

/-- The suspended validation context (`InternalValidator` in
`src/validators/generator.rs`): owned copies of the ambient parameters plus
private recursion guard, exactness and field-completeness trackers. -/
structure InternalValidator where
  name : String
  validator : CombinedValidator
  data : Option Nat
  strict : Option Bool
  from_attributes : Option Bool
  context : Option Nat
  self_instance : Option Nat
  recursion_guard : RecursionState
  exactness : Option Exactness
  fields_set_count : Option Nat
  validation_mode : InputType
  hide_input_in_errors : Bool
  validation_error_cause : Bool
  cache_str : StringCacheMode

/-- Mirrors `InternalValidator::new`: snapshot the ambient parameters and the
exactness / field-completeness trackers out of the current validation state. -/
def InternalValidator.new (name : String) (validator : CombinedValidator)
    (state : ValidationState) (hide_input_in_errors : Bool)
    (validation_error_cause : Bool) : InternalValidator :=
  { name := name, validator := validator,
    data := state.extra.data, strict := state.extra.strict,
    from_attributes := state.extra.from_attributes,
    context := state.extra.context, self_instance := state.extra.self_instance,
    recursion_guard := state.recursion_guard,
    exactness := state.exactness, fields_set_count := state.fields_set_count,
    validation_mode := state.extra.input_type,
    hide_input_in_errors := hide_input_in_errors,
    validation_error_cause := validation_error_cause,
    cache_str := state.extra.cache_str }

/-- The fresh ambient-parameter bundle `InternalValidator` rebuilds on each
invocation (`field_name` differs between `validate` and
`validate_assignment`). -/
def InternalValidator.extraFor (v : InternalValidator)
    (field_name : Option String) : Extra :=
  { input_type := v.validation_mode, data := v.data, strict := v.strict,
    from_attributes := v.from_attributes, field_name := field_name,
    context := v.context, self_instance := v.self_instance,
    cache_str := v.cache_str, by_alias := none, by_name := none }

/-- The state `InternalValidator::validate` runs the wrapped node in: fresh
state seeded with the stored exactness and field-completeness count (partial
mode off). -/
def InternalValidator.seededState (v : InternalValidator) : ValidationState :=
  { ValidationState.new (v.extraFor none) v.recursion_guard false with
    exactness := v.exactness, fields_set_count := v.fields_set_count }

/-- The state `InternalValidator::validate_assignment` runs the wrapped node
in: fresh state seeded with the stored exactness only (the field-completeness
count is not seeded by the source). -/
def InternalValidator.seededAssignState (v : InternalValidator)
    (field_name : String) : ValidationState :=
  { ValidationState.new (v.extraFor (some field_name)) v.recursion_guard false with
    exactness := v.exactness }

/-- Mirrors `InternalValidator::validate`: run one validation of `input`
against the wrapped node in a freshly seeded state, convert an internal error
into a host-facing report tagged with the stored synthetic name, and fold the
resulting exactness, field-completeness count and recursion guard back into
the context. -/
def InternalValidator.validate (v : InternalValidator) (input : Val)
    (outer_location : Option LocItem) :
    Except ValidationError Val × InternalValidator :=
  let r := v.validator.validate input v.seededState
  let result : Except ValidationError Val :=
    match r.1 with
    | Except.ok value => Except.ok value
    | Except.error e => Except.error (ValidationError.from_val_error v.name e
        outer_location v.hide_input_in_errors v.validation_error_cause)
  (result, { v with exactness := r.2.exactness,
                    fields_set_count := r.2.fields_set_count,
                    recursion_guard := r.2.recursion_guard })

/-- Mirrors `InternalValidator::validate_assignment`: run one assignment-style
field revalidation; the source folds back only the exactness (and the
recursion guard, mutated through the borrow) — not the field-completeness
count. -/
def InternalValidator.validate_assignment (v : InternalValidator) (model : Val)
    (field_name : String) (field_value : Val) (outer_location : Option LocItem) :
    Except ValidationError Val × InternalValidator :=
  let r := v.validator.validate_assignment model field_name field_value
    (v.seededAssignState field_name)
  let result : Except ValidationError Val :=
    match r.1 with
    | Except.ok value => Except.ok value
    | Except.error e => Except.error (ValidationError.from_val_error v.name e
        outer_location v.hide_input_in_errors v.validation_error_cause)
  (result, { v with exactness := r.2.exactness,
                    recursion_guard := r.2.recursion_guard })

/-- Modelled from the spec: the generic produced-iterator capability.  `next`
returns the next item paired with its position and post-increments the
internal counter; `index` is the count of items obtained so far;
`input_value` is the handle `input_as_error_value` renders (the original
producer object, independent of the position).  The Rust enumeration has a
host-iterator arm and a parsed-document arm with identical protocols; one
parametric record models both. -/
structure GenericIterator where
  remaining : List Val
  index : Nat
  input_value : Val
deriving DecidableEq

/-- One step of the producer: yields the head item with its position, or
signals exhaustion, leaving the counter unchanged. -/
def GenericIterator.next (it : GenericIterator) :
    Option (Val × Nat) × GenericIterator :=
  match it.remaining with
  | [] => (none, it)
  | x :: rest => (some (x, it.index), { it with remaining := rest, index := it.index + 1 })

/-- The validated-producer handle (`ValidatorIterator` in
`src/validators/generator.rs`). -/
structure ValidatorIterator where
  iterator : GenericIterator
  validator : Option InternalValidator
  min_length : Option Nat
  max_length : Option Nat
  hide_input_in_errors : Bool
  validation_error_cause : Bool

/-- Mirrors `ValidatorIterator::__next__` (the body of the `next!` macro):
pull one item from the producer; if an item arrives and an item validator
exists, enforce the maximum length (`TooLong` with unknown actual length)
before validating the item at its index; with no item validator pass the raw
item through; on exhaustion enforce the minimum length (`TooShort` with the
observed count). -/
def ValidatorIterator.next (slf : ValidatorIterator) :
    Except ValidationError (Option Val) × ValidatorIterator :=
  let min_length := slf.min_length
  let max_length := slf.max_length
  let hide_input_in_errors := slf.hide_input_in_errors
  let validation_error_cause := slf.validation_error_cause
  let step := slf.iterator.next
  match step.1 with
  | some (next, index) =>
    match slf.validator with
    | some validator =>
      match max_length with
      | some m =>
        if index ≥ m then
          let val_error := ValError.new_custom_input
            (ErrorType.tooLong "Generator" m none) step.2.input_value
          (Except.error (ValidationError.from_val_error "ValidatorIterator"
              val_error none hide_input_in_errors validation_error_cause),
           { slf with iterator := step.2 })
        else
          let r := validator.validate next (some (LocItem.index index))
          (r.1.map some, { slf with iterator := step.2, validator := some r.2 })
      | none =>
        let r := validator.validate next (some (LocItem.index index))
        (r.1.map some, { slf with iterator := step.2, validator := some r.2 })
    | none => (Except.ok (some next), { slf with iterator := step.2 })
  | none =>
    match min_length with
    | some m =>
      if step.2.index < m then
        let val_error := ValError.new_custom_input
          (ErrorType.tooShort "Generator" m step.2.index) step.2.input_value
        (Except.error (ValidationError.from_val_error "ValidatorIterator"
            val_error none hide_input_in_errors validation_error_cause),
         { slf with iterator := step.2 })
      else (Except.ok none, { slf with iterator := step.2 })
    | none => (Except.ok none, { slf with iterator := step.2 })

/-- Mirrors the `index` getter: the live position counter. -/
def ValidatorIterator.index (slf : ValidatorIterator) : Nat :=
  slf.iterator.index

/-- A pull sequence: `n` consecutive `__next__` calls, collecting each
outcome. -/
def ValidatorIterator.run : ValidatorIterator → Nat →
    List (Except ValidationError (Option Val)) × ValidatorIterator
  | vi, 0 => ([], vi)
  | vi, n + 1 =>
    let s := vi.next
    let t := ValidatorIterator.run s.2 n
    (s.1 :: t.1, t.2)

/-- Modelled from the spec: the abstract `Input` capability the generator
validator needs — borrow the value as a produced iterator (fresh, position 0)
or fail when the value is not iterable.  `handle` stands for the host object
itself. -/
structure GenInput where
  items : Option (List Val)
  handle : Val

/-- Modelled from the spec: `input.validate_iter()` — a fresh iterator over
the produced items, or an internal error for a non-iterable input. -/
def GenInput.validate_iter (input : GenInput) :
    Except ValError GenericIterator :=
  match input.items with
  | none => Except.error { error_type := ErrorType.other "iterator_type",
                           input := some input.handle }
  | some l => Except.ok { remaining := l, index := 0, input_value := input.handle }

/-- The compiled generator validator node (`GeneratorValidator` in
`src/validators/generator.rs`). -/
structure GeneratorValidator where
  item_validator : Option CombinedValidator
  min_length : Option Nat
  max_length : Option Nat
  name : String
  hide_input_in_errors : Bool
  validation_error_cause : Bool

/-- Mirrors `GeneratorValidator::validate`: force partial mode off, borrow the
input as an iterator, snapshot a suspended validation context when an item
schema exists, and return the validated-producer handle. -/
def GeneratorValidator.validate (self : GeneratorValidator) (input : GenInput)
    (state : ValidationState) :
    Except ValError ValidatorIterator × ValidationState :=
  let state := { state with allowPartial := false }
  match input.validate_iter with
  | Except.error e => (Except.error e, state)
  | Except.ok iterator =>
    let validator := self.item_validator.map fun v =>
      InternalValidator.new "ValidatorIterator" v state
        self.hide_input_in_errors self.validation_error_cause
    (Except.ok { iterator := iterator, validator := validator,
                 min_length := self.min_length, max_length := self.max_length,
                 hide_input_in_errors := self.hide_input_in_errors,
                 validation_error_cause := self.validation_error_cause },
     state)

/-- Mirrors the `get_name` implementation. -/
def GeneratorValidator.get_name (self : GeneratorValidator) : String :=
  self.name

/-- The schema options `GeneratorValidator::build` reads.  `items_schema`
stands for the already-compiled result of `get_items_schema` (defined in the
list validator, outside the excerpt). -/
structure GenSchema where
  items_schema : Option CombinedValidator
  min_length : Option Nat
  max_length : Option Nat

/-- The configuration options `GeneratorValidator::build` reads; `none` means
the key is absent. -/
structure BuildConfig where
  hide_input_in_errors : Option Bool
  validation_error_cause : Option Bool

/-- Mirrors `config.get_as(key)` on an optional configuration mapping: an
absent mapping behaves like a mapping with every key absent. -/
def configGetBool (config : Option BuildConfig)
    (key : BuildConfig → Option Bool) : Option Bool :=
  match config with
  | none => none
  | some c => key c

/-- Mirrors `GeneratorValidator::build`: synthesize the name from the item
schema, read the length bounds from the schema, and default both error-format
options to `false` when absent. -/
def GeneratorValidator.build (schema : GenSchema) (config : Option BuildConfig) :
    GeneratorValidator :=
  let item_validator := schema.items_schema
  let name :=
    match item_validator with
    | some v => "generator[" ++ v.get_name ++ "]"
    | none => "generator[any]"
  { item_validator := item_validator, name := name,
    min_length := schema.min_length, max_length := schema.max_length,
    hide_input_in_errors :=
      (configGetBool config BuildConfig.hide_input_in_errors).getD false,
    validation_error_cause :=
      (configGetBool config BuildConfig.validation_error_cause).getD false }

/-- Whether a pull outcome is a success (an item or normal exhaustion). -/
def resultIsOk : Except ValidationError (Option Val) → Bool
  | Except.error _ => false
  | Except.ok _ => true

/-- The number of items successfully yielded by a list of pull outcomes. -/
def yieldedCount : List (Except ValidationError (Option Val)) → Nat
  | [] => 0
  | Except.ok (some _) :: rest => yieldedCount rest + 1
  | Except.ok none :: rest => yieldedCount rest
  | Except.error _ :: rest => yieldedCount rest

/-- All error-presentation flags of a validated-producer handle (its own and
its suspended context's) are off. -/
def errorFlagsOff (vi : ValidatorIterator) : Prop :=
  vi.hide_input_in_errors = false ∧ vi.validation_error_cause = false ∧
    ∀ iv, vi.validator = some iv →
      iv.hide_input_in_errors = false ∧ iv.validation_error_cause = false

end Validators

namespace Serializers

/-- Host values flowing through serialization: the exact null/None sentinel, a
value whose type merely imitates the sentinel (a non-exact match), or an
ordinary object. -/
inductive SerValue where
  | null
  | nullLike
  | obj (n : Nat)
deriving DecidableEq

/-- The object types the excerpt queries; only the null/None type is used. -/
inductive ObType where
  | noneType
deriving DecidableEq

/-- Result of the object-type lookup: exact match, subclass-like match, or no
match. -/
inductive IsType where
  | exact
  | subclass
  | isFalse
deriving DecidableEq

/-- The object-type lookup capability carried in the ambient serialization
parameters. -/
structure ObTypeLookup where
  is_type : SerValue → ObType → IsType

/-- Modelled from the spec: the standard lookup checks the value's type by
identity — only the sentinel itself is an exact match; an imitation of the
sentinel is a subclass-like (non-exact) match. -/
def ObTypeLookup.standard : ObTypeLookup :=
  { is_type := fun v _ =>
      match v with
      | SerValue.null => IsType.exact
      | SerValue.nullLike => IsType.subclass
      | SerValue.obj _ => IsType.isFalse }

/-- The ambient serialization parameters the excerpt reads (only the
object-type lookup is touched by the nullable serializer). -/
structure Extra where
  ob_type_lookup : ObTypeLookup

/-- Serialization errors (opaque to the excerpt). -/
inductive SerError where
  | err (msg : String)
deriving DecidableEq

/-- The wire value produced through the injected serializer sink: a serialized
null (`serialize_none`) or a serialized host value. -/
inductive JsonValue where
  | null
  | val (v : SerValue)
deriving DecidableEq

/-- Modelled from the spec: an inner compiled serializer node
(`CombinedSerializer`), abstract to the excerpt — a record of its operations
and its lax-retry signal. -/
structure CombinedSerializer where
  to_python : SerValue → Option SerValue → Option SerValue → Extra →
    Except SerError SerValue
  json_key : SerValue → Extra → Except SerError String
  serde_serialize : SerValue → Option SerValue → Option SerValue → Extra →
    Except SerError JsonValue
  get_name : String
  retry_with_lax_check : Bool

/-- Modelled from the spec: `infer_json_key_known` (defined outside the
excerpt) renders a known null key as the fixed textual null-key literal,
independent of the key and the ambient parameters. -/
def infer_json_key_known (ob_type : ObType) (_key : SerValue) (_extra : Extra) :
    Except SerError String :=
  match ob_type with
  | ObType.noneType => Except.ok "None"

/-- The nullable wrapper serializer (`NullableSerializer` in
`src/serializers/type_serializers/nullable.rs`): exactly one inner node. -/
structure NullableSerializer where
  serializer : CombinedSerializer

/-- Mirrors `NullableSerializer::to_python`: an exact null short-circuits to
the native null; anything else delegates to the inner node. -/
def NullableSerializer.to_python (self : NullableSerializer) (value : SerValue)
    (inc exc : Option SerValue) (extra : Extra) : Except SerError SerValue :=
  match extra.ob_type_lookup.is_type value ObType.noneType with
  | IsType.exact => Except.ok SerValue.null
  | _ => self.serializer.to_python value inc exc extra

/-- Mirrors `NullableSerializer::json_key`: an exact null key renders through
`infer_json_key_known`; anything else delegates to the inner node. -/
def NullableSerializer.json_key (self : NullableSerializer) (key : SerValue)
    (extra : Extra) : Except SerError String :=
  match extra.ob_type_lookup.is_type key ObType.noneType with
  | IsType.exact => infer_json_key_known ObType.noneType key extra
  | _ => self.serializer.json_key key extra

/-- Mirrors `NullableSerializer::serde_serialize`: an exact null emits a
serialized null through the sink; anything else delegates to the inner node. -/
def NullableSerializer.serde_serialize (self : NullableSerializer)
    (value : SerValue) (inc exc : Option SerValue) (extra : Extra) :
    Except SerError JsonValue :=
  match extra.ob_type_lookup.is_type value ObType.noneType with
  | IsType.exact => Except.ok JsonValue.null
  | _ => self.serializer.serde_serialize value inc exc extra

/-- Mirrors the `get_name` implementation (`EXPECTED_TYPE`). -/
def NullableSerializer.get_name (_self : NullableSerializer) : String :=
  "nullable"

/-- Mirrors `NullableSerializer::retry_with_lax_check`: delegate the lax-retry
signal to the inner node unchanged. -/
def NullableSerializer.retry_with_lax_check (self : NullableSerializer) : Bool :=
  self.serializer.retry_with_lax_check

/-- The schema mapping `NullableSerializer::build` reads: the required inner
`schema` entry, an opaque handle when present. -/
structure NullableSchema where
  schema : Option Nat

/-- Compilation errors: the required-key failure raised by `get_as_req`, or an
error propagated from compiling the inner schema. -/
inductive BuildErr where
  | missingSchemaKey
  | other (msg : String)
deriving DecidableEq

/-- Mirrors `NullableSerializer::build`: require the inner `schema` entry
(`get_as_req` fails when it is absent), compile it through the ambient
`CombinedSerializer::build` (abstract here), and wrap the result. -/
def NullableSerializer.build (schema : NullableSchema)
    (buildCombined : Nat → Except BuildErr CombinedSerializer) :
    Except BuildErr NullableSerializer :=
  match schema.schema with
  | none => Except.error BuildErr.missingSchemaKey
  | some sub =>
    match buildCombined sub with
    | Except.error e => Except.error e
    | Except.ok inner => Except.ok { serializer := inner }

end Serializers

namespace Validators

/-- A concrete inner validator used by the concrete instances below: accepts
every value unchanged and leaves the state untouched. -/
def cvId : CombinedValidator :=
  { validate := fun v s => (Except.ok v, s),
    validate_assignment := fun _ _ v s => (Except.ok v, s),
    get_name := "int" }

/-- A concrete suspended validation context wrapping `cvId`. -/
def ivId : InternalValidator :=
  { name := "ValidatorIterator", validator := cvId, data := none,
    strict := none, from_attributes := none, context := none,
    self_instance := none, recursion_guard := { depth := 0 },
    exactness := none, fields_set_count := none,
    validation_mode := InputType.python, hide_input_in_errors := false,
    validation_error_cause := false, cache_str := StringCacheMode.all }

/-- `ivId` with a stored field-completeness count. -/
def ivFive : InternalValidator :=
  { ivId with fields_set_count := some 5 }

/-- A validated-producer handle with no item schema, bounds 2..4, over a
producer of five items. -/
def viNoSchema : ValidatorIterator :=
  { iterator := { remaining := [10, 11, 12, 13, 14], index := 0, input_value := 99 },
    validator := none, min_length := some 2, max_length := some 4,
    hide_input_in_errors := false, validation_error_cause := false }

/-- A handle with an item schema that has already yielded one item and whose
producer holds one more, with maximum length 1. -/
def viMax : ValidatorIterator :=
  { iterator := { remaining := [8], index := 1, input_value := 99 },
    validator := some ivId, min_length := none, max_length := some 1,
    hide_input_in_errors := false, validation_error_cause := false }

/-- A handle with an item schema over a two-item producer with maximum
length 1. -/
def viMaxTwo : ValidatorIterator :=
  { iterator := { remaining := [7, 8], index := 0, input_value := 99 },
    validator := some ivId, min_length := none, max_length := some 1,
    hide_input_in_errors := false, validation_error_cause := false }

/-- An exhausted handle that yielded one item, with minimum length 2. -/
def viShort : ValidatorIterator :=
  { iterator := { remaining := [], index := 1, input_value := 99 },
    validator := none, min_length := some 2, max_length := none,
    hide_input_in_errors := false, validation_error_cause := false }

/-- A schema with no item schema and no bounds. -/
def schema0 : GenSchema :=
  { items_schema := none, min_length := none, max_length := none }

end Validators

namespace Serializers

/-- A concrete inner serializer for the witnesses below. -/
def cs0 : CombinedSerializer :=
  { to_python := fun v _ _ _ => Except.ok v,
    json_key := fun _ _ => Except.ok "k",
    serde_serialize := fun v _ _ _ => Except.ok (JsonValue.val v),
    get_name := "int",
    retry_with_lax_check := true }

/-- A concrete nullable serializer wrapping `cs0`. -/
def ns0 : NullableSerializer :=
  { serializer := cs0 }

/-- Ambient parameters carrying the standard object-type lookup. -/
def extra0 : Extra :=
  { ob_type_lookup := ObTypeLookup.standard }

/-- An inner-schema compiler that always fails (never reached by the
missing-key witness). -/
def buildFail : Nat → Except BuildErr CombinedSerializer :=
  fun _ => Except.error (BuildErr.other "unused")

end Serializers

namespace Validators

/-- C3: whenever `GeneratorValidator::validate` is entered it unconditionally
forces the validation state's partial-mode flag off, whatever its previous
value and whether or not borrowing the input as an iterator succeeds. -/
theorem generator_validate_forces_partial_off (self : GeneratorValidator)
    (input : GenInput) (state : ValidationState) :
    ((GeneratorValidator.validate self input state).2).allowPartial = false := by
  rcases h : GenInput.validate_iter input with e | it <;>
    simp [GeneratorValidator.validate, h]

/-- C2: on a pull that finds the producer exhausted, a configured minimum
length below the observed count of items fails with `TooShort` carrying the
configured minimum and the observed count as actual length, while an observed
count at or above the minimum terminates the iteration normally. -/
theorem generator_min_length_on_exhaustion (vi : ValidatorIterator) (m : Nat)
    (hmin : vi.min_length = some m) (hex : vi.iterator.remaining = []) :
    (vi.iterator.index < m →
      (ValidatorIterator.next vi).1 = Except.error
        (ValidationError.from_val_error "ValidatorIterator"
          (ValError.new_custom_input
            (ErrorType.tooShort "Generator" m vi.iterator.index)
            vi.iterator.input_value)
          none vi.hide_input_in_errors vi.validation_error_cause)) ∧
    (m ≤ vi.iterator.index → (ValidatorIterator.next vi).1 = Except.ok none) := by
  refine ⟨fun h => ?_, fun h => ?_⟩
  · simp [ValidatorIterator.next, GenericIterator.next, hex, hmin, h]
  · simp [ValidatorIterator.next, GenericIterator.next, hex, hmin, Nat.not_lt.mpr h]

/-- Witness for C2: an exhausted producer that yielded one item under a
minimum length of two fails with `TooShort{min_length := 2, actual_length
:= 1}`. -/
theorem generator_min_length_on_exhaustion_witness :
    viShort.min_length = some 2 ∧ viShort.iterator.index < 2 ∧
    (ValidatorIterator.next viShort).1 = Except.error
      (ValidationError.from_val_error "ValidatorIterator"
        (ValError.new_custom_input (ErrorType.tooShort "Generator" 2 1) 99)
        none false false) :=
  ⟨rfl, by decide,
   (generator_min_length_on_exhaustion viShort 2 rfl rfl).1 (by decide)⟩

/-- Counterexample for C1: with `min_length = 2`, `max_length = 4` and no item
schema, the pull that obtains the producer's fifth item (position 4, at the
maximum) succeeds and yields the raw item instead of failing with `TooLong` —
the maximum-length check is skipped when no item validator exists. -/
theorem generator_max_length_skipped_without_item_schema :
    viNoSchema.max_length = some 4 ∧
    ((ValidatorIterator.run viNoSchema 4).2).index = 4 ∧
    (ValidatorIterator.next (ValidatorIterator.run viNoSchema 4).2).1 =
      Except.ok (some 14) :=
  ⟨rfl, rfl, rfl⟩

/-- C1 (amended): when an item validator is present, a pull that obtains an
item at a position at or beyond the configured maximum length fails
immediately with `TooLong` carrying the configured maximum and an unset
actual length, consuming exactly that one item from the producer and not
validating it. -/
theorem generator_max_length_fails_with_item_schema
    (vi : ValidatorIterator) (iv : InternalValidator) (m : Nat) (x : Val)
    (rest : List Val) (hv : vi.validator = some iv) (hm : vi.max_length = some m)
    (hr : vi.iterator.remaining = x :: rest) (hi : m ≤ vi.iterator.index) :
    (ValidatorIterator.next vi).1 = Except.error
      (ValidationError.from_val_error "ValidatorIterator"
        (ValError.new_custom_input (ErrorType.tooLong "Generator" m none)
          vi.iterator.input_value)
        none vi.hide_input_in_errors vi.validation_error_cause) ∧
    ((ValidatorIterator.next vi).2).iterator.remaining = rest := by
  constructor <;>
    simp [ValidatorIterator.next, GenericIterator.next, hr, hv, hm, hi]

/-- Witness for the amended C1: a handle that already yielded one item under a
maximum length of one fails with `TooLong{max_length := 1, actual_length
unset}` on the next pull, leaving the producer with nothing further
consumed. -/
theorem generator_max_length_fails_with_item_schema_witness :
    viMax.max_length = some 1 ∧ 1 ≤ viMax.iterator.index ∧
    (ValidatorIterator.next viMax).1 = Except.error
      (ValidationError.from_val_error "ValidatorIterator"
        (ValError.new_custom_input (ErrorType.tooLong "Generator" 1 none) 99)
        none false false) ∧
    ((ValidatorIterator.next viMax).2).iterator.remaining = ([] : List Val) :=
  ⟨rfl, by decide,
   (generator_max_length_fails_with_item_schema viMax ivId 1 8 [] rfl rfl rfl
     (by decide)).1,
   (generator_max_length_fails_with_item_schema viMax ivId 1 8 [] rfl rfl rfl
     (by decide)).2⟩

end Validators

namespace Serializers

/-- C8: the nullable serializer delegates the lax-retry signal to its inner
node unchanged. -/
theorem nullable_retry_with_lax_check_delegates (self : NullableSerializer) :
    NullableSerializer.retry_with_lax_check self =
      self.serializer.retry_with_lax_check :=
  rfl

/-- C10: compiling a nullable serializer fails with the missing-key error
whenever the schema mapping lacks the inner `schema` entry, and every
successful compilation wraps exactly the inner serializer compiled from that
entry. -/
theorem nullable_build_requires_inner_schema (schema : NullableSchema)
    (buildCombined : Nat → Except BuildErr CombinedSerializer) :
    (schema.schema = none →
      NullableSerializer.build schema buildCombined =
        Except.error BuildErr.missingSchemaKey) ∧
    (∀ s, NullableSerializer.build schema buildCombined = Except.ok s →
      ∃ sub, schema.schema = some sub ∧
        buildCombined sub = Except.ok s.serializer) := by
  constructor
  · intro h
    simp [NullableSerializer.build, h]
  · intro s hs
    rcases hsub : schema.schema with _ | sub
    · simp [NullableSerializer.build, hsub] at hs
    · rcases hb : buildCombined sub with e | inner
      · simp [NullableSerializer.build, hsub, hb] at hs
      · refine ⟨sub, rfl, ?_⟩
        simp [NullableSerializer.build, hsub, hb] at hs
        rw [hb, ← hs]

/-- Witness for C10: a schema mapping without the inner entry fails to
compile with the missing-key error. -/
theorem nullable_build_requires_inner_schema_witness :
    NullableSerializer.build { schema := none } buildFail =
      Except.error BuildErr.missingSchemaKey :=
  (nullable_build_requires_inner_schema { schema := none } buildFail).1 rfl

/-- C6: under the standard object-type lookup, a value that is exactly the
null sentinel serializes to the native null (`to_python`) and to a serialized
null (`serde_serialize`) regardless of the inner node, while every other value
— including a subclass-like imitation of the sentinel — is delegated to the
inner node with the same include/exclude/ambient arguments. -/
theorem nullable_serializer_null_short_circuit (self : NullableSerializer)
    (value : SerValue) (inc exc : Option SerValue) (extra : Extra)
    (hstd : extra.ob_type_lookup = ObTypeLookup.standard) :
    (value = SerValue.null →
      NullableSerializer.to_python self value inc exc extra =
        Except.ok SerValue.null ∧
      NullableSerializer.serde_serialize self value inc exc extra =
        Except.ok JsonValue.null) ∧
    (value ≠ SerValue.null →
      NullableSerializer.to_python self value inc exc extra =
        self.serializer.to_python value inc exc extra ∧
      NullableSerializer.serde_serialize self value inc exc extra =
        self.serializer.serde_serialize value inc exc extra) := by
  constructor
  · rintro rfl
    exact ⟨by simp [NullableSerializer.to_python, hstd, ObTypeLookup.standard],
           by simp [NullableSerializer.serde_serialize, hstd, ObTypeLookup.standard]⟩
  · intro hne
    rcases value with _ | _ | n
    · exact absurd rfl hne
    · exact ⟨by simp [NullableSerializer.to_python, hstd, ObTypeLookup.standard],
             by simp [NullableSerializer.serde_serialize, hstd, ObTypeLookup.standard]⟩
    · exact ⟨by simp [NullableSerializer.to_python, hstd, ObTypeLookup.standard],
             by simp [NullableSerializer.serde_serialize, hstd, ObTypeLookup.standard]⟩

/-- Witness for C6: the exact null short-circuits to the native null and the
serialized null, and a subclass-like imitation delegates to the inner node. -/
theorem nullable_serializer_null_short_circuit_witness :
    (NullableSerializer.to_python ns0 SerValue.null none none extra0 =
      Except.ok SerValue.null) ∧
    (NullableSerializer.serde_serialize ns0 SerValue.null none none extra0 =
      Except.ok JsonValue.null) ∧
    (NullableSerializer.to_python ns0 SerValue.nullLike none none extra0 =
      ns0.serializer.to_python SerValue.nullLike none none extra0) :=
  ⟨((nullable_serializer_null_short_circuit ns0 SerValue.null none none extra0
      rfl).1 rfl).1,
   ((nullable_serializer_null_short_circuit ns0 SerValue.null none none extra0
      rfl).1 rfl).2,
   ((nullable_serializer_null_short_circuit ns0 SerValue.nullLike none none extra0
      rfl).2 (by decide)).1⟩

/-- C7: under the standard object-type lookup, a key that is exactly the null
sentinel renders as the fixed textual null-key literal independent of the
inner node, while every other key is delegated to the inner node's
`json_key`. -/
theorem nullable_json_key_null_literal (self : NullableSerializer)
    (key : SerValue) (extra : Extra)
    (hstd : extra.ob_type_lookup = ObTypeLookup.standard) :
    (key = SerValue.null →
      NullableSerializer.json_key self key extra = Except.ok "None") ∧
    (key ≠ SerValue.null →
      NullableSerializer.json_key self key extra =
        self.serializer.json_key key extra) := by
  constructor
  · rintro rfl
    simp [NullableSerializer.json_key, hstd, ObTypeLookup.standard,
      infer_json_key_known]
  · intro hne
    rcases key with _ | _ | n
    · exact absurd rfl hne
    · simp [NullableSerializer.json_key, hstd, ObTypeLookup.standard]
    · simp [NullableSerializer.json_key, hstd, ObTypeLookup.standard]

/-- Witness for C7: the exact null key renders as the fixed literal even
though the inner node would render every key differently, and a non-null key
delegates. -/
theorem nullable_json_key_null_literal_witness :
    (NullableSerializer.json_key ns0 SerValue.null extra0 = Except.ok "None") ∧
    (NullableSerializer.json_key ns0 (SerValue.obj 3) extra0 =
      ns0.serializer.json_key (SerValue.obj 3) extra0) :=
  ⟨(nullable_json_key_null_literal ns0 SerValue.null extra0 rfl).1 rfl,
   (nullable_json_key_null_literal ns0 (SerValue.obj 3) extra0 rfl).2 (by decide)⟩

end Serializers

namespace Validators

/-- Counterexample for C4: `InternalValidator::validate_assignment` does not
fold the field-completeness counter back into the context — after an
assignment run whose final state carries no count, a context that stored a
count of five still stores five, differing from the run's final state. -/
theorem internal_validate_assignment_drops_field_count :
    ((InternalValidator.validate_assignment ivFive 0 "f" 1 none).2).fields_set_count
      = some 5 ∧
    ((ivFive.validator.validate_assignment 0 "f" 1
        (ivFive.seededAssignState "f")).2).fields_set_count = none ∧
    ((InternalValidator.validate_assignment ivFive 0 "f" 1 none).2).fields_set_count
      ≠ ((ivFive.validator.validate_assignment 0 "f" 1
          (ivFive.seededAssignState "f")).2).fields_set_count :=
  ⟨rfl, rfl, by decide⟩

/-- C4 (amended): after `InternalValidator::validate`, whether the run
succeeds or fails, the stored exactness and field-completeness count equal
the run's final state; after `InternalValidator::validate_assignment` only
the exactness is folded back, the stored field-completeness count staying
what it was before the call. -/
theorem internal_validator_folds_state (iv : InternalValidator)
    (input model fieldValue : Val) (fname : String) (loc : Option LocItem)
    (res resA : Except ValError Val) (stF stA : ValidationState)
    (h : iv.validator.validate input iv.seededState = (res, stF))
    (hA : iv.validator.validate_assignment model fname fieldValue
      (iv.seededAssignState fname) = (resA, stA)) :
    (((InternalValidator.validate iv input loc).2).exactness = stF.exactness ∧
     ((InternalValidator.validate iv input loc).2).fields_set_count =
       stF.fields_set_count) ∧
    (((InternalValidator.validate_assignment iv model fname fieldValue loc).2).exactness
       = stA.exactness ∧
     ((InternalValidator.validate_assignment iv model fname fieldValue loc).2).fields_set_count
       = iv.fields_set_count) := by
  refine ⟨⟨?_, ?_⟩, ⟨?_, ?_⟩⟩ <;>
    simp [InternalValidator.validate, InternalValidator.validate_assignment, h, hA]

/-- A suspended validation context keeps its error-presentation flags across
an invocation. -/
theorem internal_validate_flags_preserved (iv : InternalValidator) (input : Val)
    (loc : Option LocItem) :
    ((InternalValidator.validate iv input loc).2).hide_input_in_errors =
      iv.hide_input_in_errors ∧
    ((InternalValidator.validate iv input loc).2).validation_error_cause =
      iv.validation_error_cause :=
  ⟨rfl, rfl⟩

/-- An error report produced by a suspended validation context carries the
presentation driven by the context's stored flags. -/
theorem internal_validate_error_flags (iv : InternalValidator) (input : Val)
    (loc : Option LocItem) (r : ValidationError)
    (h : (InternalValidator.validate iv input loc).1 = Except.error r) :
    r.input_excerpt_shown = !iv.hide_input_in_errors ∧
    r.causal_chain_attached = iv.validation_error_cause := by
  rcases hres : (iv.validator.validate input iv.seededState).1 with e | v
  · simp [InternalValidator.validate, hres] at h
    rw [← h]
    exact ⟨rfl, rfl⟩
  · simp [InternalValidator.validate, hres] at h

/-- A pull keeps the handle's own error-presentation flags. -/
theorem next_flags_eq (vi : ValidatorIterator) :
    ((ValidatorIterator.next vi).2).hide_input_in_errors =
      vi.hide_input_in_errors ∧
    ((ValidatorIterator.next vi).2).validation_error_cause =
      vi.validation_error_cause := by
  rcases hrem : vi.iterator.remaining with _ | ⟨x, rest⟩
  · rcases hmin : vi.min_length with _ | mn
    · simp [ValidatorIterator.next, GenericIterator.next, hrem, hmin]
    · by_cases hlt : vi.iterator.index < mn <;>
        simp [ValidatorIterator.next, GenericIterator.next, hrem, hmin, hlt]
  · rcases hval : vi.validator with _ | iv
    · simp [ValidatorIterator.next, GenericIterator.next, hrem, hval]
    · rcases hm : vi.max_length with _ | m
      · simp [ValidatorIterator.next, GenericIterator.next, hrem, hval, hm]
      · by_cases hge : vi.iterator.index ≥ m <;>
          simp [ValidatorIterator.next, GenericIterator.next, hrem, hval, hm, hge]

/-- A pull keeps the suspended context's error-presentation flags off when
they were off. -/
theorem next_validator_flags (vi : ValidatorIterator)
    (h3 : ∀ iv, vi.validator = some iv →
      iv.hide_input_in_errors = false ∧ iv.validation_error_cause = false)
    (iv' : InternalValidator)
    (h : ((ValidatorIterator.next vi).2).validator = some iv') :
    iv'.hide_input_in_errors = false ∧ iv'.validation_error_cause = false := by
  rcases hrem : vi.iterator.remaining with _ | ⟨x, rest⟩
  · rcases hmin : vi.min_length with _ | mn
    · simp [ValidatorIterator.next, GenericIterator.next, hrem, hmin] at h
      exact h3 iv' h
    · by_cases hlt : vi.iterator.index < mn <;>
        simp [ValidatorIterator.next, GenericIterator.next, hrem, hmin, hlt] at h <;>
        exact h3 iv' h
  · rcases hval : vi.validator with _ | iv
    · simp [ValidatorIterator.next, GenericIterator.next, hrem, hval] at h
    · rcases hm : vi.max_length with _ | m
      · simp [ValidatorIterator.next, GenericIterator.next, hrem, hval, hm] at h
        rw [← h]
        exact h3 iv hval
      · by_cases hge : vi.iterator.index ≥ m
        · simp [ValidatorIterator.next, GenericIterator.next, hrem, hval, hm,
            hge] at h
          rw [← h]
          exact h3 iv hval
        · simp [ValidatorIterator.next, GenericIterator.next, hrem, hval, hm,
            hge] at h
          rw [← h]
          exact h3 iv hval

/-- A pull preserves the property that all error-presentation flags are
off. -/
theorem next_preserves_error_flags_off (vi : ValidatorIterator)
    (h : errorFlagsOff vi) : errorFlagsOff (ValidatorIterator.next vi).2 :=
  ⟨(next_flags_eq vi).1.trans h.1, (next_flags_eq vi).2.trans h.2.1,
   fun iv' hiv' => next_validator_flags vi h.2.2 iv' hiv'⟩

/-- With all error-presentation flags off, an error report produced by a pull
shows the offending-input excerpt and attaches no causal chain. -/
theorem next_error_report_flags (vi : ValidatorIterator) (r : ValidationError)
    (hOff : errorFlagsOff vi)
    (h : (ValidatorIterator.next vi).1 = Except.error r) :
    r.input_excerpt_shown = true ∧ r.causal_chain_attached = false := by
  obtain ⟨h1, h2, h3⟩ := hOff
  rcases hrem : vi.iterator.remaining with _ | ⟨x, rest⟩
  · rcases hmin : vi.min_length with _ | mn
    · simp [ValidatorIterator.next, GenericIterator.next, hrem, hmin] at h
    · by_cases hlt : vi.iterator.index < mn
      · simp [ValidatorIterator.next, GenericIterator.next, hrem, hmin, hlt] at h
        rw [← h]
        simp [ValidationError.from_val_error, h1, h2]
      · simp [ValidatorIterator.next, GenericIterator.next, hrem, hmin, hlt] at h
  · rcases hval : vi.validator with _ | iv
    · simp [ValidatorIterator.next, GenericIterator.next, hrem, hval] at h
    · have hdeleg : (InternalValidator.validate iv x
          (some (LocItem.index vi.iterator.index))).1 = Except.error r →
          r.input_excerpt_shown = true ∧ r.causal_chain_attached = false := by
        intro hres
        have := internal_validate_error_flags iv x
          (some (LocItem.index vi.iterator.index)) r hres
        rcases h3 iv hval with ⟨ha, hb⟩
        rw [ha, hb] at this
        simpa using this
      rcases hm : vi.max_length with _ | m
      · rcases hres : (InternalValidator.validate iv x
            (some (LocItem.index vi.iterator.index))).1 with e | v
        · simp [ValidatorIterator.next, GenericIterator.next, hrem, hval, hm,
            hres, Except.map] at h
          exact hdeleg (h ▸ hres)
        · simp [ValidatorIterator.next, GenericIterator.next, hrem, hval, hm,
            hres, Except.map] at h
      · by_cases hge : vi.iterator.index ≥ m
        · simp [ValidatorIterator.next, GenericIterator.next, hrem, hval, hm,
            hge] at h
          rw [← h]
          simp [ValidationError.from_val_error, h1, h2]
        · rcases hres : (InternalValidator.validate iv x
              (some (LocItem.index vi.iterator.index))).1 with e | v
          · simp [ValidatorIterator.next, GenericIterator.next, hrem, hval, hm,
              hge, hres, Except.map] at h
            exact hdeleg (h ▸ hres)
          · simp [ValidatorIterator.next, GenericIterator.next, hrem, hval, hm,
              hge, hres, Except.map] at h

/-- With all error-presentation flags off, every error report produced
anywhere in a pull sequence shows the offending-input excerpt and attaches no
causal chain. -/
theorem run_error_reports (vi : ValidatorIterator) (n : Nat)
    (r : ValidationError) (hOff : errorFlagsOff vi)
    (hmem : Except.error r ∈ (ValidatorIterator.run vi n).1) :
    r.input_excerpt_shown = true ∧ r.causal_chain_attached = false := by
  induction n generalizing vi with
  | zero => simp [ValidatorIterator.run] at hmem
  | succ n ih =>
    have hrun : ValidatorIterator.run vi (n + 1) =
        ((ValidatorIterator.next vi).1 ::
           (ValidatorIterator.run (ValidatorIterator.next vi).2 n).1,
         (ValidatorIterator.run (ValidatorIterator.next vi).2 n).2) := rfl
    rw [hrun] at hmem
    simp only [List.mem_cons] at hmem
    rcases hmem with hmem | hmem
    · exact next_error_report_flags vi r hOff hmem.symm
    · exact ih (ValidatorIterator.next vi).2
        (next_preserves_error_flags_off vi hOff) hmem

/-- A generator validator whose error-presentation flags are off produces
validated-producer handles whose flags (including the suspended context's)
are off. -/
theorem generator_validate_flags_off (gv : GeneratorValidator)
    (input : GenInput) (st st1 : ValidationState) (vi : ValidatorIterator)
    (hh : gv.hide_input_in_errors = false)
    (hc : gv.validation_error_cause = false)
    (h : GeneratorValidator.validate gv input st = (Except.ok vi, st1)) :
    errorFlagsOff vi := by
  rcases hit : GenInput.validate_iter input with e | it
  · simp [GeneratorValidator.validate, hit] at h
  · simp [GeneratorValidator.validate, hit] at h
    obtain ⟨hvi, -⟩ := h
    refine ⟨?_, ?_, ?_⟩
    · rw [← hvi]; exact hh
    · rw [← hvi]; exact hc
    · intro iv hiv
      rw [← hvi] at hiv
      rcases hcv : gv.item_validator with _ | cv
      · simp [hcv] at hiv
      · simp [hcv] at hiv
        rw [← hiv]
        exact ⟨hh, hc⟩

/-- The iterator's position counter advances by exactly one on a pull that
obtains an item and stays put on a pull that finds the producer exhausted,
whatever the outcome of the pull. -/
theorem next_index_advance (vi : ValidatorIterator) :
    ((ValidatorIterator.next vi).2).iterator.index =
      (match vi.iterator.remaining with
       | [] => vi.iterator.index
       | _ :: _ => vi.iterator.index + 1) := by
  rcases hrem : vi.iterator.remaining with _ | ⟨x, rest⟩
  · rcases hmin : vi.min_length with _ | mn
    · simp [ValidatorIterator.next, GenericIterator.next, hrem, hmin]
    · by_cases hlt : vi.iterator.index < mn <;>
        simp [ValidatorIterator.next, GenericIterator.next, hrem, hmin, hlt]
  · rcases hval : vi.validator with _ | iv
    · simp [ValidatorIterator.next, GenericIterator.next, hrem, hval]
    · rcases hm : vi.max_length with _ | m
      · simp [ValidatorIterator.next, GenericIterator.next, hrem, hval, hm]
      · by_cases hge : vi.iterator.index ≥ m <;>
          simp [ValidatorIterator.next, GenericIterator.next, hrem, hval, hm, hge]

/-- A successful pull on an exhausted producer is a normal end of
sequence. -/
theorem next_exhausted_ok_none (vi : ValidatorIterator)
    (h : vi.iterator.remaining = [])
    (hok : resultIsOk (ValidatorIterator.next vi).1 = true) :
    (ValidatorIterator.next vi).1 = Except.ok none := by
  rcases hmin : vi.min_length with _ | mn
  · simp [ValidatorIterator.next, GenericIterator.next, h, hmin]
  · by_cases hlt : vi.iterator.index < mn
    · simp [ValidatorIterator.next, GenericIterator.next, h, hmin, hlt,
        resultIsOk] at hok
    · simp [ValidatorIterator.next, GenericIterator.next, h, hmin, hlt]

/-- A successful pull on a producer holding an item yields exactly one
item. -/
theorem next_consuming_ok_some (vi : ValidatorIterator) (x : Val)
    (rest : List Val) (h : vi.iterator.remaining = x :: rest)
    (hok : resultIsOk (ValidatorIterator.next vi).1 = true) :
    ∃ v, (ValidatorIterator.next vi).1 = Except.ok (some v) := by
  rcases hval : vi.validator with _ | iv
  · exact ⟨x, by simp [ValidatorIterator.next, GenericIterator.next, h, hval]⟩
  · rcases hres : (InternalValidator.validate iv x
        (some (LocItem.index vi.iterator.index))).1 with e | v
    · rcases hm : vi.max_length with _ | m
      · simp [ValidatorIterator.next, GenericIterator.next, h, hval, hm, hres,
          Except.map, resultIsOk] at hok
      · by_cases hge : vi.iterator.index ≥ m
        · simp [ValidatorIterator.next, GenericIterator.next, h, hval, hm, hge,
            resultIsOk] at hok
        · simp [ValidatorIterator.next, GenericIterator.next, h, hval, hm, hge,
            hres, Except.map, resultIsOk] at hok
    · rcases hm : vi.max_length with _ | m
      · exact ⟨v, by simp [ValidatorIterator.next, GenericIterator.next, h,
          hval, hm, hres, Except.map]⟩
      · by_cases hge : vi.iterator.index ≥ m
        · simp [ValidatorIterator.next, GenericIterator.next, h, hval, hm, hge,
            resultIsOk] at hok
        · exact ⟨v, by simp [ValidatorIterator.next, GenericIterator.next, h,
            hval, hm, hge, hres, Except.map]⟩

/-- Over any pull sequence in which every pull succeeded, the position counter
advances by exactly the number of items yielded. -/
theorem run_index_counts_yields (n : Nat) (vi : ValidatorIterator)
    (h : ((ValidatorIterator.run vi n).1).all resultIsOk = true) :
    ((ValidatorIterator.run vi n).2).iterator.index =
      vi.iterator.index + yieldedCount (ValidatorIterator.run vi n).1 := by
  induction n generalizing vi with
  | zero => simp [ValidatorIterator.run, yieldedCount]
  | succ n ih =>
    have hrun : ValidatorIterator.run vi (n + 1) =
        ((ValidatorIterator.next vi).1 ::
           (ValidatorIterator.run (ValidatorIterator.next vi).2 n).1,
         (ValidatorIterator.run (ValidatorIterator.next vi).2 n).2) := rfl
    rw [hrun] at h ⊢
    simp only [List.all_cons, Bool.and_eq_true] at h
    obtain ⟨h1, h2⟩ := h
    rcases hrem : vi.iterator.remaining with _ | ⟨x, rest⟩
    · have hok := next_exhausted_ok_none vi hrem h1
      have hidx : ((ValidatorIterator.next vi).2).iterator.index =
          vi.iterator.index := by
        have hadv := next_index_advance vi
        rw [hrem] at hadv
        exact hadv
      rw [hok]
      simp only [yieldedCount]
      rw [ih (ValidatorIterator.next vi).2 h2, hidx]
    · obtain ⟨v, hok⟩ := next_consuming_ok_some vi x rest hrem h1
      have hidx : ((ValidatorIterator.next vi).2).iterator.index =
          vi.iterator.index + 1 := by
        have hadv := next_index_advance vi
        rw [hrem] at hadv
        exact hadv
      rw [hok]
      simp only [yieldedCount]
      rw [ih (ValidatorIterator.next vi).2 h2, hidx]
      omega

/-- Counterexample for C5: with an item schema and maximum length one over a
two-item producer, the second pull obtains the over-limit item (raising the
position counter to two) and then fails with `TooLong`, so only one item was
ever successfully yielded while the exposed index reads two. -/
theorem generator_index_exceeds_yields_after_too_long :
    yieldedCount (ValidatorIterator.run viMaxTwo 2).1 = 1 ∧
    ValidatorIterator.index (ValidatorIterator.run viMaxTwo 2).2 = 2 ∧
    ValidatorIterator.index (ValidatorIterator.run viMaxTwo 2).2 ≠
      yieldedCount (ValidatorIterator.run viMaxTwo 2).1 :=
  ⟨rfl, rfl, by decide⟩

/-- C5 (amended): over any pull sequence in which no pull has failed, the
exposed index property equals the number of items successfully yielded so
far, and a freshly produced validated-producer handle exposes index zero
before the first pull; a failed pull that obtained an item leaves the counter
one beyond the yielded count. -/
theorem generator_index_equals_yield_count (vi : ValidatorIterator) (n : Nat)
    (h : ((ValidatorIterator.run vi n).1).all resultIsOk = true) :
    ValidatorIterator.index (ValidatorIterator.run vi n).2 =
      ValidatorIterator.index vi + yieldedCount (ValidatorIterator.run vi n).1 ∧
    ∀ (gv : GeneratorValidator) (input : GenInput) (st st1 : ValidationState)
      (vi0 : ValidatorIterator),
      GeneratorValidator.validate gv input st = (Except.ok vi0, st1) →
      ValidatorIterator.index vi0 = 0 := by
  constructor
  · exact run_index_counts_yields n vi h
  · intro gv input st st1 vi0 hval
    rcases hitems : input.items with _ | l
    · simp [GeneratorValidator.validate, GenInput.validate_iter, hitems] at hval
    · simp [GeneratorValidator.validate, GenInput.validate_iter, hitems] at hval
      obtain ⟨hvi0, -⟩ := hval
      rw [← hvi0]
      rfl

/-- Witness for the amended C5: two successful pulls over a fresh handle leave
the exposed index equal to the yielded count. -/
theorem generator_index_equals_yield_count_witness :
    ((ValidatorIterator.run viNoSchema 2).1).all resultIsOk = true ∧
    ValidatorIterator.index (ValidatorIterator.run viNoSchema 2).2 =
      ValidatorIterator.index viNoSchema +
        yieldedCount (ValidatorIterator.run viNoSchema 2).1 :=
  ⟨by decide, (generator_index_equals_yield_count viNoSchema 2 (by decide)).1⟩

/-- C9: a generator schema compiled with the error-format options absent from
the configuration (or with no configuration at all) defaults both to off, so
every error report produced anywhere in a pull sequence of a resulting
validated-producer handle shows the offending-input excerpt and attaches no
causal chain. -/
theorem generator_build_defaults (schema : GenSchema)
    (config : Option BuildConfig)
    (hh : configGetBool config BuildConfig.hide_input_in_errors = none)
    (hc : configGetBool config BuildConfig.validation_error_cause = none) :
    (GeneratorValidator.build schema config).hide_input_in_errors = false ∧
    (GeneratorValidator.build schema config).validation_error_cause = false ∧
    ∀ (input : GenInput) (st st1 : ValidationState) (vi : ValidatorIterator)
      (n : Nat) (r : ValidationError),
      GeneratorValidator.validate (GeneratorValidator.build schema config)
        input st = (Except.ok vi, st1) →
      Except.error r ∈ (ValidatorIterator.run vi n).1 →
      r.input_excerpt_shown = true ∧ r.causal_chain_attached = false := by
  have hbh : (GeneratorValidator.build schema config).hide_input_in_errors
      = false := by
    simp [GeneratorValidator.build, hh]
  have hbc : (GeneratorValidator.build schema config).validation_error_cause
      = false := by
    simp [GeneratorValidator.build, hc]
  refine ⟨hbh, hbc, ?_⟩
  intro input st st1 vi n r hval hmem
  exact run_error_reports vi n r
    (generator_validate_flags_off _ input st st1 vi hbh hbc hval) hmem

/-- Witness for C9: building with no configuration mapping defaults both
error-format options to off. -/
theorem generator_build_defaults_witness :
    configGetBool none BuildConfig.hide_input_in_errors = none ∧
    (GeneratorValidator.build schema0 none).hide_input_in_errors = false ∧
    (GeneratorValidator.build schema0 none).validation_error_cause = false :=
  ⟨rfl, (generator_build_defaults schema0 none rfl rfl).1,
   (generator_build_defaults schema0 none rfl rfl).2.1⟩

/-- Witness for the amended C4: with a state-preserving inner node, a context
that stored a field-completeness count of five folds the run's final
exactness and count back after `validate` (the seeded count, five), and keeps
five after `validate_assignment`. -/
theorem internal_validator_folds_state_witness :
    (ivFive.validator.validate 2 ivFive.seededState =
      (Except.ok 2, ivFive.seededState)) ∧
    ((InternalValidator.validate ivFive 2 none).2).fields_set_count = some 5 ∧
    ((InternalValidator.validate_assignment ivFive 0 "f" 1 none).2).fields_set_count
      = some 5 :=
  ⟨rfl,
   (internal_validator_folds_state ivFive 2 0 1 "f" none (Except.ok 2)
      (Except.ok 1) ivFive.seededState (ivFive.seededAssignState "f") rfl rfl).1.2,
   (internal_validator_folds_state ivFive 2 0 1 "f" none (Except.ok 2)
      (Except.ok 1) ivFive.seededState (ivFive.seededAssignState "f") rfl rfl).2.2⟩

end Validators

end PydanticCore
